import Mathlib

/-!
Verification of the `containish` container runtime (Go) against its
natural-language specification.

The Go source (package `container`, `cmd` and `main`) is shallow-embedded
here: byte streams become `List Char` (each `Char` modelling one byte /
rune), fallible operations return `Except`/`Option`, and the effectful
functions (`RunContainer`, `StopContainer`, `handleParentStage`,
`handleChildStage`) become pure functions from an explicit environment
(recording which system calls succeed and what the peer process wrote)
to a result that carries the trace of externally visible effects
(persisted records, signals, mounts, pipe writes) together with the
returned error.
-/

namespace Containish

/-! ### Go standard-library helpers used by the source

`strconv.Atoi`, `strings.TrimSpace`, `strings.HasPrefix` and
`bufio.Reader.ReadString` are modelled on `List Char`. -/

/-- The Go `unicode.IsSpace` predicate restricted to the byte range that can
occur on the handshake pipe (space, tab, newline, vertical tab, form feed,
carriage return, NEL, NBSP). -/
def isGoSpace (c : Char) : Bool :=
  c = ' ' ∨ c = '\t' ∨ c = '\n' ∨ c = Char.ofNat 11 ∨ c = Char.ofNat 12 ∨
    c = '\r' ∨ c = Char.ofNat 133 ∨ c = Char.ofNat 160

/-- ASCII decimal digit test, as used by `strconv.Atoi`. -/
def isDigitChar (c : Char) : Bool :=
  48 ≤ c.toNat ∧ c.toNat ≤ 57

/-- The ASCII digit with value `n` (for `n < 10`). -/
def digitChar (n : Nat) : Char :=
  Char.ofNat (48 + n)

/-- Value of a decimal digit string (fold as `strconv.Atoi` accumulates). -/
def digitsVal (l : List Char) : Nat :=
  l.foldl (fun a c => a * 10 + (c.toNat - 48)) 0

/-- Decimal digits of `n`, most significant first; fuel-based so that it is
structurally recursive (the fuel `n + 1` always suffices). Models the output
of Go's `fmt.Sprintf("%d", n)` for a non-negative value. -/
def natDigitsAux : Nat → Nat → List Char
  | 0, _ => []
  | fuel + 1, n =>
    if n < 10 then [digitChar n]
    else natDigitsAux fuel (n / 10) ++ [digitChar (n % 10)]

/-- Decimal representation of a natural number. -/
def natDigits (n : Nat) : List Char :=
  natDigitsAux (n + 1) n

/-- A non-empty all-digit string and its value, `none` otherwise. -/
def parseDigits (l : List Char) : Option Nat :=
  if l ≠ [] ∧ l.all isDigitChar then some (digitsVal l) else none

/-- Go's `strconv.Atoi`: an optional single leading sign, then a non-empty
run of decimal digits, with a 64-bit signed range check (Go's `int` is 64-bit
here; out-of-range input is an `ErrRange` error). -/
def goAtoi (s : List Char) : Except Unit Int :=
  match s with
  | [] => .error ()
  | c :: rest =>
    if c = '+' then
      match parseDigits rest with
      | some v => if v < 2 ^ 63 then .ok (v : Int) else .error ()
      | none => .error ()
    else if c = '-' then
      match parseDigits rest with
      | some v => if v ≤ 2 ^ 63 then .ok (-(v : Int)) else .error ()
      | none => .error ()
    else
      match parseDigits s with
      | some v => if v < 2 ^ 63 then .ok (v : Int) else .error ()
      | none => .error ()

/-- Drop leading Go whitespace. -/
def trimLeft (l : List Char) : List Char :=
  l.dropWhile isGoSpace

/-- Drop trailing Go whitespace. -/
def trimRight (l : List Char) : List Char :=
  (l.reverse.dropWhile isGoSpace).reverse

/-- Go's `strings.TrimSpace`. -/
def trimSpace (l : List Char) : List Char :=
  trimLeft (trimRight l)

/-- Go's `bufio.Reader.ReadString('\n')`: the returned line includes the
delimiter; reaching end of input without a delimiter is an error (the source
propagates that error), modelled as `none`. Also returns the unread rest. -/
def readLine : List Char → Option (List Char × List Char)
  | [] => none
  | c :: rest =>
    if c = '\n' then some ([c], rest)
    else
      match readLine rest with
      | none => none
      | some (l, r) => some (c :: l, r)

/-! ### Data model (`container.go` lines 19-47) -/

/-- Source `const ParentStage = "PARENT_STAGE"`. -/
def ParentStage : String := "PARENT_STAGE"

/-- Source `const ChildStage = "CHILD_STAGE"`. -/
def ChildStage : String := "CHILD_STAGE"

/-- Source `type Status int`. -/
abbrev Status := Int

/-- Source `Created Status = iota` (0). -/
def Created : Status := 0

/-- Source `Running` (1). -/
def Running : Status := 1

/-- Source `Stopped` (2). -/
def Stopped : Status := 2

/-- A Go `time.Time` instant: seconds since the epoch plus nanoseconds.
(The monotonic-clock reading is dropped by JSON marshalling and is not
modelled.) -/
structure GoTime where
  sec : Int
  nsec : Nat
  deriving DecidableEq, Repr

/-- The persisted `Container` record (`container.go` lines 30-36). -/
structure Container where
  id : String
  initProcessPiD : Int
  createdAt : GoTime
  status : Status
  bundle : String
  deriving DecidableEq, Repr

/-- Source `stageOptions`: the ephemeral message stage 0 sends to stage 1. -/
structure StageOptions where
  detach : Bool
  rootfs : String
  deriving DecidableEq, Repr

/-- Source `var baseStateDir = "/run/miniruntime"`. -/
def baseStateDir : String := "/run/miniruntime"

/-- Source `filepath.Join` for the two-component case used by `StateDir`:
an empty second component is dropped. -/
def goFilepathJoin (a b : String) : String :=
  if b = "" then a else a ++ "/" ++ b

/-- Source `StateDir(id)` (`container.go` lines 50-52). -/
def StateDir (id : String) : String :=
  goFilepathJoin baseStateDir id

/-! ### JSON encoding of the record (`SaveState` / `LoadState`)

`encoding/json` is modelled at the level of a JSON syntax tree; the
`time.Time` marshaller (RFC 3339 text with nanoseconds, which round-trips
the instant exactly) is modelled as a leaf carrying the instant. -/

/-- JSON values as produced and consumed by `encoding/json` for this record.
The `time` leaf stands for the RFC 3339 string `time.Time.MarshalJSON`
emits; that encoding is injective in the instant, which is all the record
encoder relies on. -/
inductive Json where
  | str (s : String)
  | num (n : Int)
  | time (sec : Int) (nsec : Nat)
  deriving DecidableEq, Repr

/-- The field list `json.Marshal` produces for a `Container`, in struct
order with the struct tags of `container.go` lines 30-36. -/
def marshalContainer (c : Container) : List (String × Json) :=
  [("id", .str c.id),
   ("initProcessPiD", .num c.initProcessPiD),
   ("createdAt", .time c.createdAt.sec c.createdAt.nsec),
   ("status", .num c.status),
   ("bundle", .str c.bundle)]

/-- Field lookup by key, as `json.Unmarshal` matches object keys to struct
tags. -/
def jLookup (k : String) : List (String × Json) → Option Json
  | [] => none
  | (k', v) :: rest => if k = k' then some v else jLookup k rest

/-- Decode a string field: absent keys leave the zero value (Go semantics);
a value of the wrong type is an `UnmarshalTypeError`. -/
def getStrField (kvs : List (String × Json)) (k : String) : Option String :=
  match jLookup k kvs with
  | none => some ""
  | some (.str s) => some s
  | some _ => none

/-- Decode an integer field (`initProcessPiD` and `status`; `Status` is a
Go `int`, so any integer decodes). -/
def getIntField (kvs : List (String × Json)) (k : String) : Option Int :=
  match jLookup k kvs with
  | none => some 0
  | some (.num n) => some n
  | some _ => none

/-- Decode a `time.Time` field; the zero value is the zero instant. -/
def getTimeField (kvs : List (String × Json)) (k : String) : Option GoTime :=
  match jLookup k kvs with
  | none => some ⟨0, 0⟩
  | some (.time s n) => some ⟨s, n⟩
  | some _ => none

/-- Source `json.Unmarshal` into a `Container`. -/
def unmarshalContainer (kvs : List (String × Json)) : Option Container := do
  let i ← getStrField kvs "id"
  let p ← getIntField kvs "initProcessPiD"
  let t ← getTimeField kvs "createdAt"
  let st ← getIntField kvs "status"
  let b ← getStrField kvs "bundle"
  pure ⟨i, p, t, st, b⟩

/-- The host file system as seen by `SaveState`/`LoadState`: an association
of file paths to the JSON document stored there (newest write first). -/
abbrev FileSys := List (String × List (String × Json))

/-- Source `SaveState` (`container.go` lines 54-76): creates the directory and
writes `state.json` holding the encoded record (create, encode, fsync). -/
def SaveState (fs : FileSys) (stateDir : String) (s : Container) : FileSys :=
  (stateDir ++ "/state.json", marshalContainer s) :: fs

/-- Source `LoadState` (`container.go` lines 78-90): opens `state.json` and decodes
it; a missing file or a decode failure is an error (`none`). -/
def LoadState (fs : FileSys) (stateDir : String) : Option Container :=
  match fs.lookup (stateDir ++ "/state.json") with
  | none => none
  | some doc => unmarshalContainer doc

/-! ### Handshake reader (`readInitInfo`, `container.go` lines 537-561) -/

/-- What `readInitInfo` can report. -/
inductive HsErr where
  | readByteFail
  | badHandshakeByte (b : Nat)
  | readLineFail
  | badMessage
  | badPid
  deriving DecidableEq, Repr

/-- The four characters of the `"pid:"` tag. -/
def pidTag : List Char := ['p', 'i', 'd', ':']

/-- Source `readInitInfo` (`container.go` lines 537-561): read one byte and require
`0`; read a `'\n'`-terminated line; require the `pid:` tag; `Atoi` the
remainder after `TrimSpace`. -/
def readInitInfo (s : List Char) : Except HsErr Int :=
  match s with
  | [] => .error .readByteFail
  | b :: rest =>
    if b = Char.ofNat 0 then
      match readLine rest with
      | none => .error .readLineFail
      | some (line, _) =>
        if pidTag.isPrefixOf line then
          match goAtoi (trimSpace (line.drop 4)) with
          | .ok n => .ok n
          | .error _ => .error .badPid
        else .error .badMessage
    else .error (.badHandshakeByte b.toNat)

/-- The well-formed-stream condition of claim C1, written from the spec's
words: the stream starts with a single `0x00` byte, followed by a
newline-terminated line carrying the `pid:` tag whose remainder (whitespace
trimmed) parses as a decimal integer `N`. -/
def wellFormedHandshake (s : List Char) (N : Int) : Prop :=
  ∃ body rest, s = Char.ofNat 0 :: (body ++ '\n' :: rest) ∧
    '\n' ∉ body ∧
    pidTag.isPrefixOf body = true ∧
    goAtoi (trimSpace (body.drop 4)) = .ok N

/-- The line stage 1 writes on the init pipe to report the stage-2 PID
(`container.go` line 401: `fmt.Sprintf("pid:%d\n", pid)`). -/
def pidLine (p : Nat) : List Char :=
  pidTag ++ natDigits p ++ ['\n']

/-! ### Stage 0 — `RunContainer` (`container.go` lines 118-222) -/

/-- The error exits of `RunContainer` (and of its collaborator
`cpAlpineFS`), one constructor per `return fmt.Errorf(...)` site. -/
inductive RunError where
  | specLoadFail
  | rootfsMissing
  | statFail
  | mkdirRootfsFail
  | cpCmdFail
  | stateDirFail
  | saveStateFail
  | socketPairFail
  | startFail
  | sendOptsFail
  | handshakeFail (e : HsErr)
  | releaseFail
  | waitFail
  deriving DecidableEq, Repr

/-- Environment of one `RunContainer` call: what the collaborators and
system calls return, in program order. `handshake` is the byte stream the
parent end of the init pipe yields to `readInitInfo`. -/
structure RunEnv where
  specLoad : Except Unit String
  primaryExists : Bool
  getwd : Except Unit String
  fallbackExists : Bool
  mkdirRootfsOk : Bool
  cpOk : Bool
  mkStateDirOk : Bool
  save1Ok : Bool
  socketPairOk : Bool
  startOk : Bool
  sendOptsOk : Bool
  handshake : List Char
  save2Ok : Bool
  releaseOk : Bool
  waitOk : Bool
  now : GoTime
  deriving Repr

/-- Externally visible outcome of a `RunContainer` call: the records written
to `state.json` in order, whether the container state directory was created,
and the returned error. -/
structure RunResult where
  persisted : List Container
  stateDirCreated : Bool
  result : Except RunError Unit
  deriving Repr

/-- Source-rootfs lookup of `cpAlpineFS` (`container.go` lines 252-266):
the fixed primary path `/vagrant/alpine`, then `<cwd>/alpine`. -/
def locateAlpineSrc (env : RunEnv) : Except RunError String :=
  if env.primaryExists then .ok "/vagrant/alpine"
  else
    match env.getwd with
    | .ok wd =>
      if env.fallbackExists then .ok (wd ++ "/alpine")
      else .error .rootfsMissing
    | .error _ => .error .statFail

/-- Source `cpAlpineFS` (`container.go` lines 252-281): locate the source tree,
create the destination directory, run `cp -a src/. dst`. -/
def cpAlpineFS (env : RunEnv) : Except RunError Unit :=
  match locateAlpineSrc env with
  | .error e => .error e
  | .ok _ =>
    if env.mkdirRootfsOk then
      if env.cpOk then .ok () else .error .cpCmdFail
    else .error .mkdirRootfsFail

/-- Source `RunContainer` (`container.go` lines 118-222). The container id is
used only to name the state directory and to fill the record; the source
performs no validation on it. -/
def RunContainer (containerId _specPath : String) (detach : Bool)
    (env : RunEnv) : RunResult :=
  match env.specLoad with
  | .error _ => ⟨[], false, .error .specLoadFail⟩
  | .ok rootPath =>
    let _rootfs := if rootPath = "" then "/alpine" else rootPath
    match cpAlpineFS env with
    | .error e => ⟨[], false, .error e⟩
    | .ok _ =>
      if env.mkStateDirOk then
        let c0 : Container := ⟨containerId, 0, env.now, Created, ""⟩
        if env.save1Ok then
          if env.socketPairOk then
            if env.startOk then
              if env.sendOptsOk then
                match readInitInfo env.handshake with
                | .error e => ⟨[c0], true, .error (.handshakeFail e)⟩
                | .ok childPID =>
                  let c1 := { c0 with initProcessPiD := childPID, status := Running }
                  if env.save2Ok then
                    if detach then
                      if env.releaseOk then ⟨[c0, c1], true, .ok ()⟩
                      else ⟨[c0, c1], true, .error .releaseFail⟩
                    else
                      if env.waitOk then
                        let c2 := { c1 with status := Stopped }
                        ⟨[c0, c1, c2], true, .ok ()⟩
                      else ⟨[c0, c1], true, .error .waitFail⟩
                  else ⟨[c0], true, .error .saveStateFail⟩
              else ⟨[c0], true, .error .sendOptsFail⟩
            else ⟨[c0], true, .error .startFail⟩
          else ⟨[c0], true, .error .socketPairFail⟩
        else ⟨[], true, .error .saveStateFail⟩
      else ⟨[], false, .error .stateDirFail⟩

/-- The environment `RunContainer` gives the stage-1 process
(`container.go` lines 160-168): `cmd.Env` starts as `nil` (not
`os.Environ()`, which is the `hostEnv` argument here), and exactly one
variable is appended; the FD number is `3 + len(cmd.ExtraFiles) - 1` with a
single extra file. In Go, a non-nil `cmd.Env` replaces the inherited
environment entirely. -/
def runContainerStage1Env (hostEnv : List String) : List String :=
  let cmdEnv : List String := []
  let _ := hostEnv
  cmdEnv ++ ["INIT_PIPE=" ++ ⟨natDigits (3 + 1 - 1)⟩]

/-! ### Stage 0 — `StopContainer` (`container.go` lines 226-249) -/

/-- The error exits of `StopContainer`. -/
inductive StopErr where
  | notFound
  | notRunning
  | signalFail
  | saveStateFail
  deriving DecidableEq, Repr

/-- Source `SIGKILL` signal number. -/
def SIGKILL : Nat := 9

/-- Environment of one `StopContainer` call: the record `LoadState` yields
for the id (`none` = no readable record) and whether the kill syscall and
the state write succeed. On Unix `os.FindProcess` never fails. -/
structure StopEnv where
  record : Option Container
  killOk : Bool
  saveOk : Bool
  deriving DecidableEq, Repr

/-- Externally visible outcome of `StopContainer`: signals sent (pid,
signal number), records persisted, and the returned error. -/
structure StopResult where
  signals : List (Int × Nat)
  persisted : List Container
  result : Except StopErr Unit
  deriving Repr

/-- Source `StopContainer` (`container.go` lines 226-249). -/
def StopContainer (_containerId : String) (env : StopEnv) : StopResult :=
  match env.record with
  | none => ⟨[], [], .error .notFound⟩
  | some c =>
    if c.status = Running then
      if env.killOk then
        let c' := { c with status := Stopped }
        if env.saveOk then ⟨[(c.initProcessPiD, SIGKILL)], [c'], .ok ()⟩
        else ⟨[(c.initProcessPiD, SIGKILL)], [], .error .saveStateFail⟩
      else ⟨[(c.initProcessPiD, SIGKILL)], [], .error .signalFail⟩
    else ⟨[], [], .error .notRunning⟩

/-! ### Stage 1 — `handleParentStage` (`container.go` lines 298-418) -/

/-- The error exits of `handleParentStage`. -/
inductive ParentErr where
  | badInitPipe
  | optsDecodeFail
  | writeZeroFail
  | stagePairFail
  | startFail
  | stageReadFail
  | badStageByte (b : Nat)
  | releaseFail
  | waitFail
  deriving DecidableEq, Repr

/-- Environment of one `handleParentStage` run: the `INIT_PIPE` variable,
the decoded options message, whether each system call succeeds, the PID the
OS assigned to the stage-2 process, and the byte read from the stage pipe
(`none` = read error). -/
structure ParentEnv where
  initPipeVar : String
  opts : Option StageOptions
  writeZeroOk : Bool
  stagePairOk : Bool
  startOk : Bool
  stage2Pid : Nat
  stageRead : Option Nat
  pidWriteOk : Bool
  releaseOk : Bool
  waitOk : Bool
  deriving Repr

/-- Externally visible outcome of `handleParentStage`: the bytes written on
the init pipe (read by stage 0), the environment handed to the stage-2
process, and the returned error. -/
structure ParentResult where
  initPipeWrites : List Char
  stage2Env : List String
  result : Except ParentErr Unit
  deriving Repr

/-- Source `handleParentStage` (`container.go` lines 298-418): parse `INIT_PIPE`,
decode the options, write the `0` readiness byte, create the stage socket
pair, spawn stage 2 (with `os.Environ()` — `hostEnv` — plus `ROOTFS_PATH`
and `STAGE_PIPE`), read the stage-pipe byte and require `0`, then write the
`pid:` line (a failure there is only a warning), and release or wait. -/
def handleParentStage (hostEnv : List String) (env : ParentEnv) :
    ParentResult :=
  match goAtoi env.initPipeVar.data with
  | .error _ => ⟨[], [], .error .badInitPipe⟩
  | .ok _ =>
    match env.opts with
    | none => ⟨[], [], .error .optsDecodeFail⟩
    | some opts =>
      if env.writeZeroOk then
        let w0 : List Char := [Char.ofNat 0]
        if env.stagePairOk then
          let rootfs := if opts.rootfs = "" then "/alpine" else opts.rootfs
          let stage2Env := hostEnv ++
            ["ROOTFS_PATH=" ++ rootfs,
             "STAGE_PIPE=" ++ ⟨natDigits (3 + 1 - 1)⟩]
          if env.startOk then
            match env.stageRead with
            | none => ⟨w0, stage2Env, .error .stageReadFail⟩
            | some b =>
              if b = 0 then
                let writes :=
                  if env.pidWriteOk then w0 ++ pidLine env.stage2Pid else w0
                if opts.detach then
                  if env.releaseOk then ⟨writes, stage2Env, .ok ()⟩
                  else ⟨writes, stage2Env, .error .releaseFail⟩
                else
                  if env.waitOk then ⟨writes, stage2Env, .ok ()⟩
                  else ⟨writes, stage2Env, .error .waitFail⟩
              else ⟨w0, stage2Env, .error (.badStageByte b)⟩
          else ⟨w0, stage2Env, .error .startFail⟩
        else ⟨w0, [], .error .stagePairFail⟩
      else ⟨[], [], .error .writeZeroFail⟩

/-- The conditions under which `handleParentStage` reaches the `pid:` write
and completes it: `INIT_PIPE` parses, the options decode, every call up to
the stage-pipe read succeeds, and the byte read is `0`. -/
def parentHappy (env : ParentEnv) : Prop :=
  (∃ fd, goAtoi env.initPipeVar.data = .ok fd) ∧
  (∃ o, env.opts = some o) ∧
  env.writeZeroOk = true ∧ env.stagePairOk = true ∧ env.startOk = true ∧
  env.stageRead = some 0 ∧ env.pidWriteOk = true

/-! ### Stage 2 — `handleChildStage` (`container.go` lines 422-516) -/

/-- Linux mount flags (`golang.org/x/sys/unix`). -/
def MS_BIND : Nat := 4096

/-- Source `MS_REC` (0x4000). -/
def MS_REC : Nat := 16384

/-- Source `MS_PRIVATE` (1 <<< 18). -/
def MS_PRIVATE : Nat := 262144

/-- Source `MS_SLAVE` (1 <<< 19). -/
def MS_SLAVE : Nat := 524288

/-- Source `MNT_DETACH`. -/
def MNT_DETACH : Nat := 2

/-- The side effects stage 2 performs, in the kernel's order. -/
inductive Effect where
  | mount (src target fstype : String) (flags : Nat) (data : String)
  | openDir (path : String)
  | fchdirNewRoot
  | fchdirOldRoot
  | pivotRoot (newRoot putOld : String)
  | chdir (path : String)
  | unmount (target : String) (flags : Nat)
  | writeStageByte (b : Nat)
  | execPayload (path : String) (argv : List String)
  deriving DecidableEq, Repr

/-- The error exits of `handleChildStage`, one per fatal step. -/
inductive ChildErr where
  | badStagePipe
  | mountPrivateFail
  | bindRootfsFail
  | openOldFail
  | openNewFail
  | fchdirNewFail
  | pivotFail
  | fchdirOldFail
  | chdirFail
  | slaveFail
  | unmountFail
  | mountProcFail
  | stageWriteFail
  | execFail
  deriving DecidableEq, Repr

/-- Environment of one `handleChildStage` run: the `STAGE_PIPE` and
`ROOTFS_PATH` variables (`""` = unset, as `os.Getenv` reports) and whether
each system call succeeds. -/
structure ChildEnv where
  stagePipeVar : String
  rootfsVar : String
  mountPrivOk : Bool
  bindOk : Bool
  openOldOk : Bool
  openNewOk : Bool
  fchdirNewOk : Bool
  pivotOk : Bool
  fchdirOldOk : Bool
  chdirOk : Bool
  slaveOk : Bool
  unmountOk : Bool
  procMountOk : Bool
  stageWriteOk : Bool
  execOk : Bool
  deriving Repr

/-- Source `STAGE_PIPE` handling at the top of `handleChildStage`: unset means no
stage pipe; a set value that fails `strconv.Atoi` is a fatal error before
any mount. Returns whether a stage pipe exists. -/
def parseStagePipe (s : String) : Except ChildErr Bool :=
  if s = "" then .ok false
  else
    match goAtoi s.data with
    | .ok _ => .ok true
    | .error _ => .error .badStagePipe

/-- Source `handleChildStage` (`container.go` lines 422-516): the strict mount /
pivot / unmount sequence, each step fatal on failure, then the readiness
byte and the `exec` of `/bin/sh`. Returns the trace of attempted effects
(in order, ending at the first failure) and the result; `.ok ()` means the
process successfully replaced itself with the payload. -/
def handleChildStage (env : ChildEnv) : List Effect × Except ChildErr Unit :=
  match parseStagePipe env.stagePipeVar with
  | .error e => ([], .error e)
  | .ok hasPipe =>
    let rootfs := if env.rootfsVar = "" then "/alpine" else env.rootfsVar
    let e1 := Effect.mount "" "/" "" (MS_PRIVATE ||| MS_REC) ""
    if env.mountPrivOk then
      let e2 := Effect.mount rootfs rootfs "bind" (MS_BIND ||| MS_REC) ""
      if env.bindOk then
        let e3 := Effect.openDir "/"
        if env.openOldOk then
          let e4 := Effect.openDir rootfs
          if env.openNewOk then
            let e5 := Effect.fchdirNewRoot
            if env.fchdirNewOk then
              let e6 := Effect.pivotRoot "." "."
              if env.pivotOk then
                let e7 := Effect.fchdirOldRoot
                if env.fchdirOldOk then
                  let e8 := Effect.chdir "/"
                  if env.chdirOk then
                    let e9 := Effect.mount "" "." "" (MS_SLAVE ||| MS_REC) ""
                    if env.slaveOk then
                      let e10 := Effect.unmount "." MNT_DETACH
                      if env.unmountOk then
                        let e11 := Effect.mount "proc" "/proc" "proc" 0 ""
                        if env.procMountOk then
                          let pre := [e1, e2, e3, e4, e5, e6, e7, e8, e9,
                            e10, e11]
                          let e13 := Effect.execPayload "/bin/sh" ["/bin/sh"]
                          if hasPipe then
                            let e12 := Effect.writeStageByte 0
                            if env.stageWriteOk then
                              if env.execOk then (pre ++ [e12, e13], .ok ())
                              else (pre ++ [e12, e13], .error .execFail)
                            else (pre ++ [e12], .error .stageWriteFail)
                          else
                            if env.execOk then (pre ++ [e13], .ok ())
                            else (pre ++ [e13], .error .execFail)
                        else ([e1, e2, e3, e4, e5, e6, e7, e8, e9, e10, e11],
                          .error .mountProcFail)
                      else ([e1, e2, e3, e4, e5, e6, e7, e8, e9, e10],
                        .error .unmountFail)
                    else ([e1, e2, e3, e4, e5, e6, e7, e8, e9],
                      .error .slaveFail)
                  else ([e1, e2, e3, e4, e5, e6, e7, e8], .error .chdirFail)
                else ([e1, e2, e3, e4, e5, e6, e7], .error .fchdirOldFail)
              else ([e1, e2, e3, e4, e5, e6], .error .pivotFail)
            else ([e1, e2, e3, e4, e5], .error .fchdirNewFail)
          else ([e1, e2, e3, e4], .error .openNewFail)
        else ([e1, e2, e3], .error .openOldFail)
      else ([e1, e2], .error .bindRootfsFail)
    else ([e1], .error .mountPrivateFail)

/-- The ordered step list of claim C2, written from the spec's enumeration
(§4.3): each effect paired with whether the environment lets it succeed.
The stage-pipe write appears exactly when `STAGE_PIPE` is set. -/
def childSteps (env : ChildEnv) : List (Effect × Bool) :=
  let rootfs := if env.rootfsVar = "" then "/alpine" else env.rootfsVar
  [(Effect.mount "" "/" "" (MS_PRIVATE ||| MS_REC) "", env.mountPrivOk),
   (Effect.mount rootfs rootfs "bind" (MS_BIND ||| MS_REC) "", env.bindOk),
   (Effect.openDir "/", env.openOldOk),
   (Effect.openDir rootfs, env.openNewOk),
   (Effect.fchdirNewRoot, env.fchdirNewOk),
   (Effect.pivotRoot "." ".", env.pivotOk),
   (Effect.fchdirOldRoot, env.fchdirOldOk),
   (Effect.chdir "/", env.chdirOk),
   (Effect.mount "" "." "" (MS_SLAVE ||| MS_REC) "", env.slaveOk),
   (Effect.unmount "." MNT_DETACH, env.unmountOk),
   (Effect.mount "proc" "/proc" "proc" 0 "", env.procMountOk)] ++
  (if env.stagePipeVar = "" then []
   else [(Effect.writeStageByte 0, env.stageWriteOk)]) ++
  [(Effect.execPayload "/bin/sh" ["/bin/sh"], env.execOk)]

/-- Run a step list in order, aborting after the first step that fails;
returns the effects attempted. -/
def takeThru : List (Effect × Bool) → List Effect
  | [] => []
  | (a, b) :: r => if b then a :: takeThru r else [a]

/-! ### Process entry (`main.go` and the package `init` preamble) -/

/-- What the process does at startup. -/
inductive MainOutcome where
  | panicIndexOutOfRange
  | exitCode (n : Nat)
  | cliExecute
  | stageDispatch (stage : String)
  deriving DecidableEq, Repr

/-- Source `func main` (`main.go` lines 10-15): reads `os.Args[1]` with no length
check — a one-element argument vector makes the index expression panic. -/
def goMain (args : List String) : MainOutcome :=
  match args.get? 1 with
  | none => .panicIndexOutOfRange
  | some a => if a = "init" then .exitCode 0 else .cliExecute

/-- The whole process entry: package `container`'s `init` function
(`container.go` lines 565-583) runs before `main` and dispatches the two
reserved stages only when `len(os.Args) > 2` (so it never panics); any
other argument vector falls through to `main`. -/
def containishProcess (args : List String) : MainOutcome :=
  if 2 < args.length ∧ args.get? 1 = some "init" then
    match args.get? 2 with
    | some s =>
      if s = ParentStage then .stageDispatch ParentStage
      else if s = ChildStage then .stageDispatch ChildStage
      else goMain args
    | none => goMain args
  else goMain args

/-! ### Lemmas about decimal digits and `Atoi` -/

lemma digitsVal_append (l : List Char) (c : Char) :
    digitsVal (l ++ [c]) = digitsVal l * 10 + (c.toNat - 48) := by
  simp [digitsVal, List.foldl_append]

lemma digitChar_toNat (n : Nat) (h : n < 10) : (digitChar n).toNat = 48 + n := by
  interval_cases n <;> decide

lemma isDigitChar_digitChar (n : Nat) (h : n < 10) :
    isDigitChar (digitChar n) = true := by
  simp [isDigitChar, digitChar_toNat n h]
  omega

lemma natDigitsAux_correct (fuel : Nat) :
    ∀ n, n < fuel →
      digitsVal (natDigitsAux fuel n) = n ∧
      (natDigitsAux fuel n).all isDigitChar = true ∧
      natDigitsAux fuel n ≠ [] := by
  induction fuel with
  | zero => intro n h; omega
  | succ f ih =>
    intro n h
    by_cases h10 : n < 10
    · refine ⟨?_, ?_, ?_⟩
      · simp [natDigitsAux, h10, digitsVal, digitChar_toNat n h10]
      · simp [natDigitsAux, h10, isDigitChar_digitChar n h10]
      · simp [natDigitsAux, h10]
    · have hd : n / 10 < f := by omega
      obtain ⟨hv, ha, hne⟩ := ih (n / 10) hd
      have hlt : n % 10 < 10 := Nat.mod_lt n (by omega)
      refine ⟨?_, ?_, ?_⟩
      · rw [show natDigitsAux (f + 1) n =
            natDigitsAux f (n / 10) ++ [digitChar (n % 10)] by
            simp [natDigitsAux, h10]]
        rw [digitsVal_append, hv, digitChar_toNat _ hlt]
        omega
      · rw [show natDigitsAux (f + 1) n =
            natDigitsAux f (n / 10) ++ [digitChar (n % 10)] by
            simp [natDigitsAux, h10]]
        simp [List.all_append, ha, isDigitChar_digitChar _ hlt]
      · simp [natDigitsAux, h10]

lemma natDigits_val (n : Nat) : digitsVal (natDigits n) = n :=
  (natDigitsAux_correct (n + 1) n (Nat.lt_succ_self n)).1

lemma natDigits_all_digits (n : Nat) : (natDigits n).all isDigitChar = true :=
  (natDigitsAux_correct (n + 1) n (Nat.lt_succ_self n)).2.1

lemma natDigits_ne_nil (n : Nat) : natDigits n ≠ [] :=
  (natDigitsAux_correct (n + 1) n (Nat.lt_succ_self n)).2.2

lemma parseDigits_natDigits (n : Nat) : parseDigits (natDigits n) = some n := by
  simp [parseDigits, natDigits_ne_nil n, natDigits_val n]
  intro c hc
  have := natDigits_all_digits n
  rw [List.all_eq_true] at this
  exact this c hc

lemma isDigitChar_range (c : Char) (h : isDigitChar c = true) :
    48 ≤ c.toNat ∧ c.toNat ≤ 57 := by
  simpa [isDigitChar] using h

lemma isDigitChar_ne_plus (c : Char) (h : isDigitChar c = true) : c ≠ '+' := by
  intro he
  subst he
  exact absurd (isDigitChar_range _ h) (by decide)

lemma isDigitChar_ne_minus (c : Char) (h : isDigitChar c = true) : c ≠ '-' := by
  intro he
  subst he
  exact absurd (isDigitChar_range _ h) (by decide)

lemma isDigitChar_ne_nl (c : Char) (h : isDigitChar c = true) : c ≠ '\n' := by
  intro he
  subst he
  exact absurd (isDigitChar_range _ h) (by decide)

lemma isDigitChar_not_space (c : Char) (h : isDigitChar c = true) :
    isGoSpace c = false := by
  obtain ⟨h1, h2⟩ := isDigitChar_range c h
  simp only [isGoSpace]
  simp only [decide_eq_false_iff_not]
  rintro (he | he | he | he | he | he | he | he) <;> subst he <;>
    revert h1 h2 <;> decide

lemma goAtoi_natDigits (n : Nat) (h : n < 2 ^ 63) :
    goAtoi (natDigits n) = .ok (n : Int) := by
  obtain ⟨c, rest, hcons⟩ := List.exists_cons_of_ne_nil (natDigits_ne_nil n)
  have hcd : isDigitChar c = true := by
    have := natDigits_all_digits n
    rw [List.all_eq_true] at this
    exact this c (by rw [hcons]; simp)
  rw [hcons]
  simp only [goAtoi]
  rw [if_neg (isDigitChar_ne_plus c hcd), if_neg (isDigitChar_ne_minus c hcd),
    ← hcons, parseDigits_natDigits]
  simp only []
  rw [if_pos h]

/-! ### Lemmas about `TrimSpace` -/

lemma dropWhile_eq_self_of (p : Char → Bool) (l : List Char)
    (h : ∀ c ∈ l, p c = false) : l.dropWhile p = l := by
  cases l with
  | nil => rfl
  | cons a t => simp [List.dropWhile_cons, h a (by simp)]

lemma trimRight_eq_self (l : List Char)
    (h : ∀ c ∈ l, isGoSpace c = false) : trimRight l = l := by
  unfold trimRight
  rw [dropWhile_eq_self_of _ _ (fun c hc => h c (List.mem_reverse.mp hc))]
  exact List.reverse_reverse l

lemma trimLeft_eq_self (l : List Char)
    (h : ∀ c ∈ l, isGoSpace c = false) : trimLeft l = l :=
  dropWhile_eq_self_of _ _ h

lemma trimSpace_eq_self (l : List Char)
    (h : ∀ c ∈ l, isGoSpace c = false) : trimSpace l = l := by
  unfold trimSpace
  rw [trimRight_eq_self l h, trimLeft_eq_self l h]

lemma trimRight_concat_space (l : List Char) (c : Char)
    (h : isGoSpace c = true) : trimRight (l ++ [c]) = trimRight l := by
  unfold trimRight
  rw [List.reverse_append]
  simp [List.dropWhile_cons, h]

lemma trimSpace_concat_nl (l : List Char) :
    trimSpace (l ++ ['\n']) = trimSpace l := by
  unfold trimSpace
  rw [trimRight_concat_space l '\n' (by decide)]

/-! ### Lemmas about `ReadString` and the handshake -/

lemma readLine_append (body rest : List Char) (h : '\n' ∉ body) :
    readLine (body ++ '\n' :: rest) = some (body ++ ['\n'], rest) := by
  induction body with
  | nil => simp [readLine]
  | cons a t ih =>
    have ha : a ≠ '\n' := by
      intro he
      exact h (by simp [he])
    have ht : '\n' ∉ t := fun hm => h (by simp [hm])
    simp [readLine, ha, Ne.symm ha, ih ht]

lemma readLine_some (l : List Char) :
    ∀ line r, readLine l = some (line, r) →
      ∃ body, line = body ++ ['\n'] ∧ l = body ++ '\n' :: r ∧ '\n' ∉ body := by
  induction l with
  | nil => intro line r h; simp [readLine] at h
  | cons a t ih =>
    intro line r h
    by_cases ha : a = '\n'
    · subst ha
      simp [readLine] at h
      exact ⟨[], by simp [h.1.symm], by simp [h.2.symm], by simp⟩
    · unfold readLine at h
      rw [if_neg ha] at h
      cases hrt : readLine t with
      | none => rw [hrt] at h; exact absurd h (by simp)
      | some pr =>
        obtain ⟨l', r'⟩ := pr
        rw [hrt] at h
        simp at h
        obtain ⟨h1, h2⟩ := h
        obtain ⟨body, hb1, hb2, hb3⟩ := ih l' r' hrt
        subst h2
        refine ⟨a :: body, ?_, ?_, ?_⟩
        · simp [← h1, hb1]
        · simp [hb2]
        · simp [Ne.symm ha, hb3]

lemma isPrefixOf_iff (p l : List Char) : p.isPrefixOf l = true ↔ p <+: l :=
  List.isPrefixOf_iff_prefix

lemma nl_not_mem_pidTag : '\n' ∉ pidTag := by decide

lemma isPrefixOf_concat_nl (body : List Char)
    (h : pidTag.isPrefixOf (body ++ ['\n']) = true) :
    pidTag.isPrefixOf body = true := by
  rw [isPrefixOf_iff] at h ⊢
  rcases (List.prefix_concat_iff.mp h) with he | hp
  · exact absurd (by rw [he]; simp) nl_not_mem_pidTag
  · exact hp

lemma readInitInfo_ok_iff (s : List Char) (N : Int) :
    readInitInfo s = .ok N ↔ wellFormedHandshake s N := by
  constructor
  · intro h
    match s with
    | [] => simp [readInitInfo] at h
    | b :: rest =>
      by_cases hb : b = Char.ofNat 0
      · cases hrl : readLine rest with
        | none => simp [readInitInfo, if_pos hb, hrl] at h
        | some pr =>
          obtain ⟨line, r⟩ := pr
          simp only [readInitInfo, if_pos hb, hrl] at h
          by_cases hp : pidTag.isPrefixOf line = true
          · rw [if_pos hp] at h
            obtain ⟨body, hb1, hb2, hb3⟩ := readLine_some rest line r hrl
            subst hb1
            have hpb : pidTag.isPrefixOf body = true := isPrefixOf_concat_nl body hp
            have hlen : 4 ≤ body.length := by
              have := ((isPrefixOf_iff _ _).mp hpb).length_le
              simpa [pidTag] using this
            rw [List.drop_append_of_le_length hlen, trimSpace_concat_nl] at h
            cases hat : goAtoi (trimSpace (body.drop 4)) with
            | error e => simp [hat] at h
            | ok v =>
              simp only [hat] at h
              simp at h
              exact ⟨body, r, by rw [hb, hb2], hb3, hpb, by rw [hat, h]⟩
          · rw [if_neg hp] at h
            exact absurd h (by simp)
      · simp [readInitInfo, if_neg hb] at h
  · rintro ⟨body, rest, hs, hnl, hpb, hat⟩
    subst hs
    simp only [readInitInfo, if_true, readLine_append body rest hnl]
    have hlen : 4 ≤ body.length := by
      have := ((isPrefixOf_iff _ _).mp hpb).length_le
      simpa [pidTag] using this
    have hp : pidTag.isPrefixOf (body ++ ['\n']) = true := by
      rw [isPrefixOf_iff]
      exact ((isPrefixOf_iff _ _).mp hpb).trans (List.prefix_append body ['\n'])
    rw [if_pos hp, List.drop_append_of_le_length hlen, trimSpace_concat_nl, hat]

lemma nl_not_mem_natDigits (n : Nat) : '\n' ∉ natDigits n := by
  intro hm
  have := natDigits_all_digits n
  rw [List.all_eq_true] at this
  exact absurd (this '\n' hm) (by decide)

lemma readInitInfo_pidLine (p : Nat) (h : p < 2 ^ 63) :
    readInitInfo (Char.ofNat 0 :: pidLine p) = .ok (p : Int) := by
  rw [readInitInfo_ok_iff]
  refine ⟨pidTag ++ natDigits p, [], ?_, ?_, ?_, ?_⟩
  · simp [pidLine]
  · intro hm
    rcases List.mem_append.mp hm with hm | hm
    · exact nl_not_mem_pidTag hm
    · exact nl_not_mem_natDigits p hm
  · rw [isPrefixOf_iff]
    exact List.prefix_append pidTag (natDigits p)
  · rw [show ((pidTag ++ natDigits p).drop 4) = natDigits p by
      have := List.drop_left pidTag (natDigits p)
      simp only [pidTag] at this ⊢
      exact this]
    rw [trimSpace_eq_self (natDigits p) ?_, goAtoi_natDigits p h]
    intro c hc
    have := natDigits_all_digits p
    rw [List.all_eq_true] at this
    exact isDigitChar_not_space c (this c hc)

/-! ### Lemmas about `RunContainer` -/

/-- The conditions under which stage 0 reaches the handshake read: spec
loading, rootfs staging, state-directory creation, the first state write,
the socket pair, the spawn and the options send all succeed. -/
def reachesHandshake (env : RunEnv) : Prop :=
  (∃ r, env.specLoad = .ok r) ∧
  (env.primaryExists = true ∨
    ((∃ w, env.getwd = .ok w) ∧ env.fallbackExists = true)) ∧
  env.mkdirRootfsOk = true ∧ env.cpOk = true ∧ env.mkStateDirOk = true ∧
  env.save1Ok = true ∧ env.socketPairOk = true ∧ env.startOk = true ∧
  env.sendOptsOk = true

lemma cpAlpineFS_ok (env : RunEnv)
    (hloc : env.primaryExists = true ∨
      ((∃ w, env.getwd = .ok w) ∧ env.fallbackExists = true))
    (hmk : env.mkdirRootfsOk = true) (hcp : env.cpOk = true) :
    cpAlpineFS env = .ok () := by
  unfold cpAlpineFS locateAlpineSrc
  rcases hloc with hp | ⟨⟨w, hw⟩, hf⟩
  · simp [hp, hmk, hcp]
  · rcases hpe : env.primaryExists with _ | _ <;> simp [hw, hf, hmk, hcp]

lemma runContainer_persisted_shape (id sp : String) (d : Bool)
    (env : RunEnv) :
    (RunContainer id sp d env).persisted = [] ∨
    (RunContainer id sp d env).persisted = [⟨id, 0, env.now, Created, ""⟩] ∨
    (∃ pid, readInitInfo env.handshake = .ok pid ∧
      ((RunContainer id sp d env).persisted =
          [⟨id, 0, env.now, Created, ""⟩, ⟨id, pid, env.now, Running, ""⟩] ∨
        (RunContainer id sp d env).persisted =
          [⟨id, 0, env.now, Created, ""⟩, ⟨id, pid, env.now, Running, ""⟩,
            ⟨id, pid, env.now, Stopped, ""⟩])) := by
  unfold RunContainer
  cases env.specLoad with
  | error e => simp
  | ok r =>
    cases cpAlpineFS env with
    | error e => simp
    | ok u =>
      cases h5 : env.mkStateDirOk with
      | false => simp
      | true =>
        cases h6 : env.save1Ok with
        | false => simp
        | true =>
          cases h7 : env.socketPairOk with
          | false => simp
          | true =>
            cases h8 : env.startOk with
            | false => simp
            | true =>
              cases h9 : env.sendOptsOk with
              | false => simp
              | true =>
                cases hrd : readInitInfo env.handshake with
                | error e => simp
                | ok pid =>
                  cases h10 : env.save2Ok with
                  | false => simp
                  | true =>
                    cases d with
                    | true =>
                      cases h11 : env.releaseOk with
                      | false =>
                        refine Or.inr (Or.inr ⟨pid, rfl, Or.inl ?_⟩)
                        simp
                      | true =>
                        refine Or.inr (Or.inr ⟨pid, rfl, Or.inl ?_⟩)
                        simp
                    | false =>
                      cases h12 : env.waitOk with
                      | false =>
                        refine Or.inr (Or.inr ⟨pid, rfl, Or.inl ?_⟩)
                        simp
                      | true =>
                        refine Or.inr (Or.inr ⟨pid, rfl, Or.inr ?_⟩)
                        simp

lemma runContainer_running_pid (id sp : String) (d : Bool) (env : RunEnv)
    (c : Container) (hc : c ∈ (RunContainer id sp d env).persisted)
    (hs : c.status = Running) :
    readInitInfo env.handshake = .ok c.initProcessPiD := by
  rcases runContainer_persisted_shape id sp d env with h | h | ⟨pid, hp, h | h⟩
  · rw [h] at hc
    simp at hc
  · rw [h] at hc
    simp at hc
    rw [hc] at hs
    simp [Created, Running] at hs
  · rw [h] at hc
    simp at hc
    rcases hc with hc | hc
    · rw [hc] at hs
      simp [Created, Running] at hs
    · rw [hc]
      exact hp
  · rw [h] at hc
    simp at hc
    rcases hc with hc | hc | hc
    · rw [hc] at hs
      simp [Created, Running] at hs
    · rw [hc]
      exact hp
    · rw [hc] at hs
      simp [Stopped, Running] at hs

lemma runContainer_hs_error (id sp : String) (d : Bool) (env : RunEnv)
    (e : HsErr) (h : reachesHandshake env)
    (he : readInitInfo env.handshake = .error e) :
    RunContainer id sp d env =
      ⟨[⟨id, 0, env.now, Created, ""⟩], true, .error (.handshakeFail e)⟩ := by
  obtain ⟨⟨r, hr⟩, hloc, h3, h4, h5, h6, h7, h8, h9⟩ := h
  have hcp := cpAlpineFS_ok env hloc h3 h4
  unfold RunContainer
  rw [hr]
  simp only [hcp, h5, h6, h7, h8, h9, he, if_true]

lemma runContainer_running_mem (id sp : String) (d : Bool) (env : RunEnv)
    (pid : Int) (h : reachesHandshake env)
    (hrd : readInitInfo env.handshake = .ok pid) (hs2 : env.save2Ok = true) :
    (⟨id, pid, env.now, Running, ""⟩ : Container) ∈
      (RunContainer id sp d env).persisted := by
  obtain ⟨⟨r, hr⟩, hloc, h3, h4, h5, h6, h7, h8, h9⟩ := h
  have hcp := cpAlpineFS_ok env hloc h3 h4
  unfold RunContainer
  rw [hr]
  simp only [hcp, h5, h6, h7, h8, h9, hrd, hs2, if_true]
  cases d <;> cases h11 : env.releaseOk <;> cases h12 : env.waitOk <;>
    simp [h11, h12]

lemma runContainer_statuses (id sp : String) (d : Bool) (env : RunEnv) :
    ((RunContainer id sp d env).persisted.map Container.status).isPrefixOf
      [Created, Running, Stopped] = true := by
  rcases runContainer_persisted_shape id sp d env with h | h | ⟨pid, hp, h | h⟩ <;>
    rw [h] <;> dsimp only [List.map] <;> decide

/-! ### Lemmas about `handleParentStage` -/

lemma parent_writes (hostEnv : List String) (env : ParentEnv)
    (h : parentHappy env) :
    (handleParentStage hostEnv env).initPipeWrites =
      Char.ofNat 0 :: pidLine env.stage2Pid := by
  obtain ⟨⟨fd, h1⟩, ⟨o, h2⟩, h3, h4, h5, h6, h7⟩ := h
  unfold handleParentStage
  rw [h1, h2]
  simp only [h3, h4, h5, h6, h7, if_true]
  obtain ⟨od, orf⟩ := o
  cases od <;> cases h8 : env.releaseOk <;> cases h9 : env.waitOk <;>
    simp [h8, h9]

/-! ### Round trip of the persisted record -/

lemma unmarshal_marshal (c : Container) :
    unmarshalContainer (marshalContainer c) = some c := by
  simp [unmarshalContainer, marshalContainer, getStrField, getIntField,
    getTimeField, jLookup]

lemma load_save (fs : FileSys) (dir : String) (c : Container) :
    LoadState (SaveState fs dir c) dir = some c := by
  unfold LoadState SaveState
  simp [List.lookup, unmarshal_marshal]

/-- Claim C2: stage 2 performs exactly the ordered effect sequence
remount-private `/`, bind `rootfs` to itself, open `/` and `rootfs`,
`fchdir` to the new root, `pivot_root(".", ".")`, `fchdir` to the old root,
`chdir("/")`, slave-mount `"."`, lazy-unmount `"."`, mount `proc`, write the
`0x00` stage byte (when `STAGE_PIPE` is set), exec `/bin/sh` — aborting with
a non-zero exit at the first failing step. -/
theorem claim2 (env : ChildEnv)
    (hsp : env.stagePipeVar = "" ∨ ∃ fd, goAtoi env.stagePipeVar.data = .ok fd) :
    (handleChildStage env).1 = takeThru (childSteps env) ∧
    ((handleChildStage env).2 = .ok () ↔
      (childSteps env).all (fun s => s.2) = true) := by
  rcases hsp with h | ⟨fd, hfd⟩
  ·
    cases h1 : env.mountPrivOk with
    | false => simp [handleChildStage, childSteps, takeThru, parseStagePipe, h, h1]
    | true =>
      cases h2 : env.bindOk with
      | false => simp [handleChildStage, childSteps, takeThru, parseStagePipe, h, h1, h2]
      | true =>
        cases h3 : env.openOldOk with
        | false => simp [handleChildStage, childSteps, takeThru, parseStagePipe, h, h1, h2, h3]
        | true =>
          cases h4 : env.openNewOk with
          | false => simp [handleChildStage, childSteps, takeThru, parseStagePipe, h, h1, h2, h3, h4]
          | true =>
            cases h5 : env.fchdirNewOk with
            | false => simp [handleChildStage, childSteps, takeThru, parseStagePipe, h, h1, h2, h3, h4, h5]
            | true =>
              cases h6 : env.pivotOk with
              | false => simp [handleChildStage, childSteps, takeThru, parseStagePipe, h, h1, h2, h3, h4, h5, h6]
              | true =>
                cases h7 : env.fchdirOldOk with
                | false => simp [handleChildStage, childSteps, takeThru, parseStagePipe, h, h1, h2, h3, h4, h5, h6, h7]
                | true =>
                  cases h8 : env.chdirOk with
                  | false => simp [handleChildStage, childSteps, takeThru, parseStagePipe, h, h1, h2, h3, h4, h5, h6, h7, h8]
                  | true =>
                    cases h9 : env.slaveOk with
                    | false => simp [handleChildStage, childSteps, takeThru, parseStagePipe, h, h1, h2, h3, h4, h5, h6, h7, h8, h9]
                    | true =>
                      cases h10 : env.unmountOk with
                      | false => simp [handleChildStage, childSteps, takeThru, parseStagePipe, h, h1, h2, h3, h4, h5, h6, h7, h8, h9, h10]
                      | true =>
                        cases h11 : env.procMountOk with
                        | false => simp [handleChildStage, childSteps, takeThru, parseStagePipe, h, h1, h2, h3, h4, h5, h6, h7, h8, h9, h10, h11]
                        | true =>
                          cases h12 : env.execOk with
                          | false => simp [handleChildStage, childSteps, takeThru, parseStagePipe, h, h1, h2, h3, h4, h5, h6, h7, h8, h9, h10, h11, h12]
                          | true =>
                            simp [handleChildStage, childSteps, takeThru, parseStagePipe, h, h1, h2, h3, h4, h5, h6, h7, h8, h9, h10, h11, h12]
  · have hne : env.stagePipeVar ≠ "" := by
      intro he
      rw [he] at hfd
      rw [show ("" : String).data = [] from rfl] at hfd
      simp [goAtoi] at hfd
    cases h1 : env.mountPrivOk with
    | false => simp [handleChildStage, childSteps, takeThru, parseStagePipe, hne, hfd, h1]
    | true =>
      cases h2 : env.bindOk with
      | false => simp [handleChildStage, childSteps, takeThru, parseStagePipe, hne, hfd, h1, h2]
      | true =>
        cases h3 : env.openOldOk with
        | false => simp [handleChildStage, childSteps, takeThru, parseStagePipe, hne, hfd, h1, h2, h3]
        | true =>
          cases h4 : env.openNewOk with
          | false => simp [handleChildStage, childSteps, takeThru, parseStagePipe, hne, hfd, h1, h2, h3, h4]
          | true =>
            cases h5 : env.fchdirNewOk with
            | false => simp [handleChildStage, childSteps, takeThru, parseStagePipe, hne, hfd, h1, h2, h3, h4, h5]
            | true =>
              cases h6 : env.pivotOk with
              | false => simp [handleChildStage, childSteps, takeThru, parseStagePipe, hne, hfd, h1, h2, h3, h4, h5, h6]
              | true =>
                cases h7 : env.fchdirOldOk with
                | false => simp [handleChildStage, childSteps, takeThru, parseStagePipe, hne, hfd, h1, h2, h3, h4, h5, h6, h7]
                | true =>
                  cases h8 : env.chdirOk with
                  | false => simp [handleChildStage, childSteps, takeThru, parseStagePipe, hne, hfd, h1, h2, h3, h4, h5, h6, h7, h8]
                  | true =>
                    cases h9 : env.slaveOk with
                    | false => simp [handleChildStage, childSteps, takeThru, parseStagePipe, hne, hfd, h1, h2, h3, h4, h5, h6, h7, h8, h9]
                    | true =>
                      cases h10 : env.unmountOk with
                      | false => simp [handleChildStage, childSteps, takeThru, parseStagePipe, hne, hfd, h1, h2, h3, h4, h5, h6, h7, h8, h9, h10]
                      | true =>
                        cases h11 : env.procMountOk with
                        | false => simp [handleChildStage, childSteps, takeThru, parseStagePipe, hne, hfd, h1, h2, h3, h4, h5, h6, h7, h8, h9, h10, h11]
                        | true =>
                          cases h12 : env.stageWriteOk with
                          | false => simp [handleChildStage, childSteps, takeThru, parseStagePipe, hne, hfd, h1, h2, h3, h4, h5, h6, h7, h8, h9, h10, h11, h12]
                          | true =>
                            cases h13 : env.execOk with
                            | false => simp [handleChildStage, childSteps, takeThru, parseStagePipe, hne, hfd, h1, h2, h3, h4, h5, h6, h7, h8, h9, h10, h11, h12, h13]
                            | true =>
                              simp [handleChildStage, childSteps, takeThru, parseStagePipe, hne, hfd, h1, h2, h3, h4, h5, h6, h7, h8, h9, h10, h11, h12, h13]

/-! ### Lemma about `StopContainer` writes -/

lemma stopContainer_persisted (id : String) (env : StopEnv) (c' : Container)
    (hc : c' ∈ (StopContainer id env).persisted) :
    c'.status = Stopped ∧
    ∃ c, env.record = some c ∧ c.status = Running ∧
      c' = { c with status := Stopped } := by
  cases hrec : env.record with
  | none =>
    simp only [StopContainer, hrec] at hc
    simp at hc
  | some c =>
    simp only [StopContainer, hrec] at hc
    by_cases hst : c.status = Running
    · rw [if_pos hst] at hc
      cases hk : env.killOk with
      | false => simp [hk] at hc
      | true =>
        cases hsv : env.saveOk with
        | false => simp [hk, hsv] at hc
        | true =>
          simp [hk, hsv] at hc
          rw [hc]
          exact ⟨rfl, c, rfl, hst, rfl⟩
    · rw [if_neg hst] at hc
      simp at hc

/-! ### The claims -/

/-- Claim C1: `readInitInfo` succeeds with `N` exactly when the stream
starts with a single `0x00` byte followed by a newline-terminated line with
the `pid:` tag whose remainder parses as a decimal integer `N`; on any
deviation it errors, and then `Run` returns a `Handshake` failure with no
persisted record marked `Running`. -/
theorem claim1 :
    (∀ s N, readInitInfo s = .ok N ↔ wellFormedHandshake s N) ∧
    (∀ id sp d env e, reachesHandshake env →
      readInitInfo env.handshake = .error e →
      (RunContainer id sp d env).result = .error (.handshakeFail e) ∧
      ∀ c ∈ (RunContainer id sp d env).persisted, c.status ≠ Running) := by
  constructor
  · exact readInitInfo_ok_iff
  · intro id sp d env e h he
    rw [runContainer_hs_error id sp d env e h he]
    refine ⟨rfl, ?_⟩
    intro c hc
    simp at hc
    rw [hc]
    simp [Created, Running]

/-- A stage-0 environment whose stage 1 writes `0x01` as its first
handshake byte (the E6 scenario of the spec). -/
def badHsRunEnv : RunEnv :=
  { specLoad := .ok "/alpine", primaryExists := true, getwd := .ok "/root",
    fallbackExists := false, mkdirRootfsOk := true, cpOk := true,
    mkStateDirOk := true, save1Ok := true, socketPairOk := true,
    startOk := true, sendOptsOk := true,
    handshake := [Char.ofNat 1, '\n'], save2Ok := true, releaseOk := true,
    waitOk := true, now := ⟨100, 0⟩ }

/-- Witness for claim C1 at concrete inputs: the characterization at the
stream reporting PID 7, and the corrupted-handshake run. -/
theorem claim1_witness :
    (readInitInfo (Char.ofNat 0 :: pidLine 7) = .ok 7 ↔
      wellFormedHandshake (Char.ofNat 0 :: pidLine 7) 7) ∧
    ((RunContainer "w1" "config.json" false badHsRunEnv).result =
        .error (.handshakeFail (.badHandshakeByte 1)) ∧
      ∀ c ∈ (RunContainer "w1" "config.json" false badHsRunEnv).persisted,
        c.status ≠ Running) :=
  ⟨claim1.1 (Char.ofNat 0 :: pidLine 7) 7,
   claim1.2 "w1" "config.json" false badHsRunEnv (.badHandshakeByte 1)
     ⟨⟨"/alpine", rfl⟩, Or.inl rfl, rfl, rfl, rfl, rfl, rfl, rfl, rfl⟩
     rfl⟩

/-- A stage-2 environment with a valid `STAGE_PIPE` and all calls
succeeding. -/
def happyChildEnv : ChildEnv :=
  { stagePipeVar := "3", rootfsVar := "/alpine", mountPrivOk := true,
    bindOk := true, openOldOk := true, openNewOk := true,
    fchdirNewOk := true, pivotOk := true, fchdirOldOk := true,
    chdirOk := true, slaveOk := true, unmountOk := true, procMountOk := true,
    stageWriteOk := true, execOk := true }

/-- Witness for claim C2 at a concrete environment. -/
theorem claim2_witness :
    (handleChildStage happyChildEnv).1 = takeThru (childSteps happyChildEnv) ∧
    ((handleChildStage happyChildEnv).2 = .ok () ↔
      (childSteps happyChildEnv).all (fun s => s.2) = true) :=
  claim2 happyChildEnv (Or.inr ⟨3, rfl⟩)

/-- Claim C3: for a run whose handshake stream is what stage 1 wrote, any
record persisted with `status = Running` carries exactly the stage-2 PID
that stage 1 observed and reported on the `pid:` line; and on the success
path such a record is persisted. -/
theorem claim3 (id sp : String) (d : Bool) (env : RunEnv)
    (hostEnv : List String) (penv : ParentEnv)
    (hh : env.handshake = (handleParentStage hostEnv penv).initPipeWrites)
    (hp : parentHappy penv) (hlt : penv.stage2Pid < 2 ^ 63) :
    (∀ c ∈ (RunContainer id sp d env).persisted,
      c.status = Running → c.initProcessPiD = (penv.stage2Pid : Int)) ∧
    (reachesHandshake env → env.save2Ok = true →
      (⟨id, (penv.stage2Pid : Int), env.now, Running, ""⟩ : Container) ∈
        (RunContainer id sp d env).persisted) := by
  have hw : readInitInfo env.handshake = .ok (penv.stage2Pid : Int) := by
    rw [hh, parent_writes hostEnv penv hp]
    exact readInitInfo_pidLine penv.stage2Pid hlt
  constructor
  · intro c hc hs
    have h2 := runContainer_running_pid id sp d env c hc hs
    rw [hw] at h2
    exact (Except.ok.inj h2).symm
  · intro hr hs2
    exact runContainer_running_mem id sp d env _ hr hw hs2

/-- A happy stage-1 environment observing stage-2 PID 4242. -/
def sampleParentEnv : ParentEnv :=
  { initPipeVar := "3", opts := some ⟨false, "/alpine"⟩, writeZeroOk := true,
    stagePairOk := true, startOk := true, stage2Pid := 4242,
    stageRead := some 0, pidWriteOk := true, releaseOk := true,
    waitOk := true }

/-- A stage-0 environment whose handshake stream is exactly what the happy
stage 1 wrote. -/
def composedRunEnv : RunEnv :=
  { specLoad := .ok "/alpine", primaryExists := true, getwd := .ok "/root",
    fallbackExists := false, mkdirRootfsOk := true, cpOk := true,
    mkStateDirOk := true, save1Ok := true, socketPairOk := true,
    startOk := true, sendOptsOk := true,
    handshake := (handleParentStage [] sampleParentEnv).initPipeWrites,
    save2Ok := true, releaseOk := true, waitOk := true, now := ⟨100, 0⟩ }

/-- The `parentHappy` facts for `sampleParentEnv`. -/
lemma sampleParentEnv_happy : parentHappy sampleParentEnv :=
  ⟨⟨3, rfl⟩, ⟨⟨false, "/alpine"⟩, rfl⟩, rfl, rfl, rfl, rfl, rfl⟩

/-- The `reachesHandshake` facts for `composedRunEnv`. -/
lemma composedRunEnv_reaches : reachesHandshake composedRunEnv :=
  ⟨⟨"/alpine", rfl⟩, Or.inl rfl, rfl, rfl, rfl, rfl, rfl, rfl, rfl⟩

/-- Witness for claim C3 at the concrete composed environments. -/
theorem claim3_witness :
    (∀ c ∈ (RunContainer "w3" "config.json" false composedRunEnv).persisted,
      c.status = Running →
        c.initProcessPiD = ((4242 : Nat) : Int)) ∧
    ((⟨"w3", ((4242 : Nat) : Int), composedRunEnv.now, Running, ""⟩ :
        Container) ∈
      (RunContainer "w3" "config.json" false composedRunEnv).persisted) := by
  have h := claim3 "w3" "config.json" false composedRunEnv [] sampleParentEnv
    rfl sampleParentEnv_happy (by decide)
  exact ⟨h.1, h.2 composedRunEnv_reaches rfl⟩

/-- Claim C4: persisted records satisfy the state invariants — a record
written with `status = Running` has a non-zero PID (the PID the OS handed
stage 1, which is never 0); `RunContainer`'s sequence of writes advances
along `Created → Running → Stopped` (it is a prefix of that chain); and
`StopContainer` writes only `Stopped` records, only after loading a
`Running` one. -/
theorem claim4 :
    (∀ id sp d env hostEnv penv,
      env.handshake = (handleParentStage hostEnv penv).initPipeWrites →
      parentHappy penv → penv.stage2Pid < 2 ^ 63 → penv.stage2Pid ≠ 0 →
      ∀ c ∈ (RunContainer id sp d env).persisted,
        c.status = Running → c.initProcessPiD ≠ 0) ∧
    (∀ id env, ∀ c' ∈ (StopContainer id env).persisted,
      c'.status = Running → c'.initProcessPiD ≠ 0) ∧
    (∀ id sp d env,
      ((RunContainer id sp d env).persisted.map Container.status).isPrefixOf
        [Created, Running, Stopped] = true) ∧
    (∀ id env, ∀ c' ∈ (StopContainer id env).persisted,
      c'.status = Stopped ∧
        ∃ c, env.record = some c ∧ c.status = Running ∧
          c.status ≤ c'.status) := by
  refine ⟨?_, ?_, ?_, ?_⟩
  · intro id sp d env hostEnv penv hh hp hlt hnz c hc hs
    have hw : readInitInfo env.handshake = .ok (penv.stage2Pid : Int) := by
      rw [hh, parent_writes hostEnv penv hp]
      exact readInitInfo_pidLine penv.stage2Pid hlt
    have h2 := runContainer_running_pid id sp d env c hc hs
    rw [hw] at h2
    rw [← Except.ok.inj h2]
    exact_mod_cast hnz
  · intro id env c' hc hs
    obtain ⟨h1, -⟩ := stopContainer_persisted id env c' hc
    rw [h1] at hs
    exact absurd hs (by decide)
  · intro id sp d env
    exact runContainer_statuses id sp d env
  · intro id env c' hc
    obtain ⟨h1, c, hrec, hrun, hc'⟩ := stopContainer_persisted id env c' hc
    exact ⟨h1, c, hrec, hrun, by rw [h1, hrun]; decide⟩

/-- A loaded record in the `Running` state. -/
def runningRecord : Container := ⟨"w4", 4242, ⟨100, 0⟩, Running, ""⟩

/-- A stop environment that loads `runningRecord` and whose calls
succeed. -/
def stopRunningEnv : StopEnv :=
  { record := some runningRecord, killOk := true, saveOk := true }

/-- Witness for claim C4 at concrete inputs. -/
theorem claim4_witness :
    (∀ c ∈ (RunContainer "w3" "config.json" false composedRunEnv).persisted,
      c.status = Running → c.initProcessPiD ≠ 0) ∧
    (∀ c' ∈ (StopContainer "w4" stopRunningEnv).persisted,
      c'.status = Running → c'.initProcessPiD ≠ 0) ∧
    (((RunContainer "w3" "config.json" false
        composedRunEnv).persisted.map Container.status).isPrefixOf
      [Created, Running, Stopped] = true) ∧
    (∀ c' ∈ (StopContainer "w4" stopRunningEnv).persisted,
      c'.status = Stopped ∧
        ∃ c, stopRunningEnv.record = some c ∧ c.status = Running ∧
          c.status ≤ c'.status) :=
  ⟨claim4.1 "w3" "config.json" false composedRunEnv [] sampleParentEnv rfl
      sampleParentEnv_happy (by decide) (by decide),
   claim4.2.1 "w4" stopRunningEnv,
   claim4.2.2.1 "w3" "config.json" false composedRunEnv,
   claim4.2.2.2 "w4" stopRunningEnv⟩

/-- Claim C5: `Stop` fails `NotFound` with no record, fails `NotRunning`
(without signalling or persisting, so a second `Stop` is a no-op) when the
record is not `Running`, and otherwise sends `SIGKILL` to the recorded PID
and persists the record as `Stopped`. -/
theorem claim5 (id : String) (env : StopEnv) :
    (env.record = none → StopContainer id env = ⟨[], [], .error .notFound⟩) ∧
    (∀ c, env.record = some c → c.status ≠ Running →
      StopContainer id env = ⟨[], [], .error .notRunning⟩) ∧
    (∀ c, env.record = some c → c.status = Running → env.killOk = true →
      env.saveOk = true →
      StopContainer id env =
        ⟨[(c.initProcessPiD, SIGKILL)], [{ c with status := Stopped }],
          .ok ()⟩) := by
  refine ⟨?_, ?_, ?_⟩
  · intro h
    simp [StopContainer, h]
  · intro c h hs
    simp [StopContainer, h, hs]
  · intro c h hs hk hsv
    simp [StopContainer, h, hs, hk, hsv]

/-- A stop environment that loads an already-stopped record. -/
def stopStoppedEnv : StopEnv :=
  { record := some ⟨"w5", 4242, ⟨100, 0⟩, Stopped, ""⟩, killOk := true,
    saveOk := true }

/-- Witness for claim C5: the already-stopped record yields `NotRunning`
with no signal and no write; the running record is killed and persisted as
`Stopped`. -/
theorem claim5_witness :
    StopContainer "w5" stopStoppedEnv = ⟨[], [], .error .notRunning⟩ ∧
    StopContainer "w4" stopRunningEnv =
      ⟨[(runningRecord.initProcessPiD, SIGKILL)],
        [{ runningRecord with status := Stopped }], .ok ()⟩ :=
  ⟨(claim5 "w5" stopStoppedEnv).2.1 ⟨"w5", 4242, ⟨100, 0⟩, Stopped, ""⟩ rfl
      (by decide),
   (claim5 "w4" stopRunningEnv).2.2 runningRecord rfl rfl rfl rfl⟩

/-- Claim C6: saving a `Container` and loading it back returns a record
equal in all fields, with `createdAt` equal at second precision. -/
theorem claim6 (fs : FileSys) (dir : String) (c : Container) :
    ∃ c', LoadState (SaveState fs dir c) dir = some c' ∧
      c'.id = c.id ∧ c'.initProcessPiD = c.initProcessPiD ∧
      c'.status = c.status ∧ c'.bundle = c.bundle ∧
      c'.createdAt.sec = c.createdAt.sec :=
  ⟨c, load_save fs dir c, rfl, rfl, rfl, rfl, rfl⟩

/-- Claim C7: with the source rootfs absent at both the primary path and
the CWD fallback, `Run` fails with the rootfs-missing error before the
state directory is created and before any record is written. -/
theorem claim7 (id sp : String) (d : Bool) (env : RunEnv)
    (hs : ∃ r, env.specLoad = .ok r) (hp : env.primaryExists = false)
    (hw : ∃ w, env.getwd = .ok w) (hf : env.fallbackExists = false) :
    (RunContainer id sp d env).result = .error .rootfsMissing ∧
    (RunContainer id sp d env).stateDirCreated = false ∧
    (RunContainer id sp d env).persisted = [] := by
  obtain ⟨r, hr⟩ := hs
  obtain ⟨w, hw'⟩ := hw
  have hcp : cpAlpineFS env = .error .rootfsMissing := by
    unfold cpAlpineFS locateAlpineSrc
    simp [hp, hw', hf]
  unfold RunContainer
  rw [hr]
  simp [hcp]

/-- An environment with no rootfs at either lookup path. -/
def missingRootfsEnv : RunEnv :=
  { specLoad := .ok "/alpine", primaryExists := false, getwd := .ok "/root",
    fallbackExists := false, mkdirRootfsOk := true, cpOk := true,
    mkStateDirOk := true, save1Ok := true, socketPairOk := true,
    startOk := true, sendOptsOk := true,
    handshake := Char.ofNat 0 :: pidLine 4242, save2Ok := true,
    releaseOk := true, waitOk := true, now := ⟨100, 0⟩ }

/-- Witness for claim C7 at a concrete environment. -/
theorem claim7_witness :
    (RunContainer "w7" "config.json" false missingRootfsEnv).result =
      .error .rootfsMissing ∧
    (RunContainer "w7" "config.json" false missingRootfsEnv).stateDirCreated =
      false ∧
    (RunContainer "w7" "config.json" false missingRootfsEnv).persisted = [] :=
  claim7 "w7" "config.json" false missingRootfsEnv ⟨"/alpine", rfl⟩ rfl
    ⟨"/root", rfl⟩ rfl

/-- A fully benign environment handed an empty container id. -/
def emptyIdEnv : RunEnv :=
  { specLoad := .ok "/alpine", primaryExists := true, getwd := .ok "/root",
    fallbackExists := false, mkdirRootfsOk := true, cpOk := true,
    mkStateDirOk := true, save1Ok := true, socketPairOk := true,
    startOk := true, sendOptsOk := true,
    handshake := Char.ofNat 0 :: pidLine 4242, save2Ok := true,
    releaseOk := true, waitOk := true, now := ⟨100, 0⟩ }

/-- Claim C8 counterexample: `RunContainer` called with an empty id does
not fail with any error — with every collaborator succeeding it creates the
state directory and persists records — so it does not fail with `BadInput`
before other effects. The source performs no id validation at all. -/
theorem claim8_counterexample :
    (RunContainer "" "config.json" false emptyIdEnv).result = .ok () ∧
    (RunContainer "" "config.json" false emptyIdEnv).stateDirCreated = true ∧
    (RunContainer "" "config.json" false emptyIdEnv).persisted ≠ [] := by
  have h1 : readInitInfo (Char.ofNat 0 :: pidLine 4242) =
      .ok ((4242 : Nat) : Int) :=
    readInitInfo_pidLine 4242 (by norm_num)
  refine ⟨?_, ?_, ?_⟩ <;>
    · unfold RunContainer
      simp [emptyIdEnv, cpAlpineFS, locateAlpineSrc, h1]

/-- Claim C8 amended: `Run` performs no validation of the container id and
never fails with `BadInput`. With an empty id it proceeds exactly as with
any other id: the first effect is spec loading, the state directory it
creates is the runtime root itself (`filepath.Join` drops the empty
component), and on the success path records carrying the empty id are
persisted. -/
theorem claim8 :
    (∀ sp d env, env.specLoad = .error () →
      RunContainer "" sp d env = ⟨[], false, .error .specLoadFail⟩) ∧
    StateDir "" = baseStateDir ∧
    (∀ sp d env pid, reachesHandshake env →
      readInitInfo env.handshake = .ok pid → env.save2Ok = true →
      (⟨"", pid, env.now, Running, ""⟩ : Container) ∈
        (RunContainer "" sp d env).persisted) := by
  refine ⟨?_, rfl, ?_⟩
  · intro sp d env h
    unfold RunContainer
    rw [h]
  · intro sp d env pid hr hrd hs2
    exact runContainer_running_mem "" sp d env pid hr hrd hs2

/-- An environment whose spec load fails. -/
def noSpecEnv : RunEnv :=
  { specLoad := .error (), primaryExists := true, getwd := .ok "/root",
    fallbackExists := false, mkdirRootfsOk := true, cpOk := true,
    mkStateDirOk := true, save1Ok := true, socketPairOk := true,
    startOk := true, sendOptsOk := true,
    handshake := Char.ofNat 0 :: pidLine 4242, save2Ok := true,
    releaseOk := true, waitOk := true, now := ⟨100, 0⟩ }

/-- Witness for claim C8 (amended) at concrete inputs. -/
theorem claim8_witness :
    RunContainer "" "config.json" false noSpecEnv =
      ⟨[], false, .error .specLoadFail⟩ ∧
    (⟨"", ((4242 : Nat) : Int), emptyIdEnv.now, Running, ""⟩ : Container) ∈
      (RunContainer "" "config.json" false emptyIdEnv).persisted :=
  ⟨claim8.1 "config.json" false noSpecEnv rfl,
   claim8.2.2 "config.json" false emptyIdEnv ((4242 : Nat) : Int)
     ⟨⟨"/alpine", rfl⟩, Or.inl rfl, rfl, rfl, rfl, rfl, rfl, rfl, rfl⟩
     (readInitInfo_pidLine 4242 (by norm_num)) rfl⟩

/-- Claim C9: an argument vector holding only `argv[0]` makes `main` read
`os.Args[1]` out of range and panic; the package-`init` stage dispatch that
runs first checks the length and falls through. -/
theorem claim9 (argv0 : String) :
    containishProcess [argv0] = .panicIndexOutOfRange := by
  simp [containishProcess, goMain]

/-- Claim C10: the environment stage 0 builds for stage 1 is exactly the
single variable `INIT_PIPE=3` — `cmd.Env` is grown from `nil`, not from the
host environment, so no host variable is inherited. -/
theorem claim10 (hostEnv : List String) :
    runContainerStage1Env hostEnv = ["INIT_PIPE=3"] := rfl

end Containish
